import Mathlib

/-!
# Verification of the schmipper volume-coordination and native-messaging core

Shallow embedding of the TypeScript sources:

* `extension/src/volume-modes.ts` — `VolumeModeController` with the three
  coordination policies (independent / linked / inverse);
* `native-host/src/index.ts` (messaging part) — `MESSAGE_SCHEMAS`,
  `MessageValidator.validateRequest`, `NativeMessagingProtocol`
  (`processMessages` framing loop, `sendResponse` encoding,
  `validateAndRespond` request/timeout race);
* `extension/src/background.ts` — `handleAudioStateChange` registry updates
  and the `setMode` branch of the background message router.

JavaScript numbers are modelled as rationals (`ℚ`), `Math.round` as
`⌊x + 1/2⌋`, byte buffers as `List ℕ`, and JSON field values as a small
dynamic-value type `JSVal`.  Side effects that do not touch the modelled
state (console logging, `chrome.storage` persistence, popup notification,
timestamps) are omitted.
-/

/-- JavaScript `Math.round`: rounds half toward positive infinity,
i.e. `Math.round x = ⌊x + 0.5⌋`. -/
def jsRound (q : ℚ) : ℤ := ⌊q + 1 / 2⌋

/-- `Math.max(0, Math.min(100, v))`, the clamping pattern used throughout
`volume-modes.ts`. -/
def jsClamp (v : ℚ) : ℚ := max 0 (min 100 v)

namespace VolumeModes

/-- `volume-modes.ts` — `type VolumeMode`. -/
inductive VolumeMode where
  | independent
  | linked
  | inverse
deriving DecidableEq, Repr

/-- `volume-modes.ts` — `interface AudioSource`. -/
structure AudioSource where
  id : String
  tabId : ℤ
  title : String
  favicon : Option String
  url : String
  volume : ℚ
  muted : Bool
  isPlaying : Bool
deriving DecidableEq, Repr

/-- `volume-modes.ts` — `interface VolumeModeSettings`. -/
structure VolumeModeSettings where
  mode : VolumeMode
  masterVolume : ℚ
  muteAll : Bool
deriving DecidableEq, Repr

/-- `volume-modes.ts` — class `VolumeModeController` state: the current mode,
the `Map<number, AudioSource>` keyed by `tabId` (modelled as a list in
insertion order; in-place `Map.set` on an existing key is a positional
replacement), and the persisted settings. -/
structure VolumeModeController where
  mode : VolumeMode
  sources : List AudioSource
  settings : VolumeModeSettings
deriving DecidableEq, Repr

namespace VolumeModeController

/-- `this.sources.get(tabId)` on the `Map` keyed by `tabId`. -/
def findSource (c : VolumeModeController) (tabId : ℤ) : Option AudioSource :=
  c.sources.find? (fun s => s.tabId == tabId)

/-- `getSources(): Array.from(this.sources.values())`. -/
def getSources (c : VolumeModeController) : List AudioSource :=
  c.sources

/-- `setVolumeIndependent`: clamp the volume of the addressed source,
leave every other source untouched, return the source list. -/
def setVolumeIndependent (c : VolumeModeController) (tabId : ℤ) (volume : ℚ) :
    VolumeModeController × List AudioSource :=
  match c.findSource tabId with
  | some _ =>
      let sources' := c.sources.map (fun s =>
        if s.tabId == tabId then { s with volume := jsClamp volume } else s)
      let c' := { c with sources := sources' }
      (c', c'.sources)
  | none => (c, c.sources)

/-- `setVolumeLinked`: if the target's old volume is `0`, set every source to
the clamped new volume; otherwise scale every source by
`ratio = newVolume / oldVolume` with `Math.round` and clamping. -/
def setVolumeLinked (c : VolumeModeController) (tabId : ℤ) (volume : ℚ) :
    VolumeModeController × List AudioSource :=
  match c.findSource tabId with
  | none => (c, c.sources)
  | some targetSource =>
      let oldVolume := targetSource.volume
      let newVolume := jsClamp volume
      if oldVolume = 0 then
        let sources' := c.sources.map (fun s => { s with volume := newVolume })
        let c' := { c with sources := sources' }
        (c', c'.sources)
      else
        let ratio := newVolume / oldVolume
        let sources' := c.sources.map (fun s =>
          { s with volume := jsClamp ((jsRound (s.volume * ratio) : ℤ) : ℚ) })
        let c' := { c with sources := sources' }
        (c', c'.sources)

/-- `setVolumeInverse`: no-op unless the target exists and there are at least
two sources; otherwise set the target to the clamped volume and give each
other source `Math.round(Math.min(100, max(0, remainingBudget / others)))`
where `remainingBudget = 100 * n - newVolume`. -/
def setVolumeInverse (c : VolumeModeController) (tabId : ℤ) (volume : ℚ) :
    VolumeModeController × List AudioSource :=
  match c.findSource tabId with
  | none => (c, c.sources)
  | some _ =>
      if c.sources.length < 2 then (c, c.sources)
      else
        let newVolume := jsClamp volume
        let otherCount := (c.sources.filter (fun s => !(s.tabId == tabId))).length
        let totalBudget : ℚ := 100 * c.sources.length
        let remainingBudget : ℚ := totalBudget - newVolume
        let volumePerOtherSource : ℚ := max 0 (remainingBudget / otherCount)
        let sources' := c.sources.map (fun s =>
          if s.tabId == tabId then { s with volume := newVolume }
          else { s with volume := ((jsRound (min 100 volumePerOtherSource) : ℤ) : ℚ) })
        let c' := { c with sources := sources' }
        (c', c'.sources)

/-- `setVolume`: look the target up; if absent return the unchanged source
list, otherwise dispatch on the current mode. -/
def setVolume (c : VolumeModeController) (tabId : ℤ) (volume : ℚ) :
    VolumeModeController × List AudioSource :=
  match c.findSource tabId with
  | none => (c, c.sources)
  | some _ =>
      match c.mode with
      | .independent => c.setVolumeIndependent tabId volume
      | .linked => c.setVolumeLinked tabId volume
      | .inverse => c.setVolumeInverse tabId volume

/-- `setMasterVolume`: store the raw master volume in the settings and scale
every source by `volume / 100` with rounding and clamping. -/
def setMasterVolume (c : VolumeModeController) (volume : ℚ) :
    VolumeModeController × List AudioSource :=
  let scaleFactor := volume / 100
  let sources' := c.sources.map (fun s =>
    { s with volume := jsClamp ((jsRound (s.volume * scaleFactor) : ℤ) : ℚ) })
  let c' := { c with
    settings := { c.settings with masterVolume := volume },
    sources := sources' }
  (c', c'.sources)

/-- `toggleMuteAll`: flip the `muteAll` flag and propagate it to every
source's `muted` field. -/
def toggleMuteAll (c : VolumeModeController) :
    VolumeModeController × List AudioSource :=
  let muteAll := !c.settings.muteAll
  let sources' := c.sources.map (fun s => { s with muted := muteAll })
  let c' := { c with
    settings := { c.settings with muteAll := muteAll },
    sources := sources' }
  (c', c'.sources)

/-- `setSourceMute` after its `parseInt(sourceId)` step: set the `muted`
flag of the addressed source, if present, and return the source list. -/
def setSourceMute (c : VolumeModeController) (tabId : ℤ) (muted : Bool) :
    VolumeModeController × List AudioSource :=
  match c.findSource tabId with
  | some _ =>
      let sources' := c.sources.map (fun s =>
        if s.tabId == tabId then { s with muted := muted } else s)
      let c' := { c with sources := sources' }
      (c', c'.sources)
  | none => (c, c.sources)

/-- `handleModeTransition`: entering `linked` sets every source to the
rounded average volume; entering `inverse` sets every source to
`Math.min(100, Math.round(100 / n))`; entering `independent` changes
nothing. -/
def handleModeTransition (c : VolumeModeController) (newMode : VolumeMode) :
    VolumeModeController :=
  match newMode with
  | .independent => c
  | .linked =>
      if c.sources.length = 0 then c
      else
        let averageVolume :=
          jsRound (((c.sources.map (fun s => s.volume)).sum) / c.sources.length)
        let sources' := c.sources.map (fun s => { s with volume := (averageVolume : ℚ) })
        { c with sources := sources' }
  | .inverse =>
      if c.sources.length = 0 then c
      else
        let evenVolume := jsRound (100 / (c.sources.length : ℚ))
        let sources' := c.sources.map (fun s => { s with volume := min 100 ((evenVolume : ℤ) : ℚ) })
        { c with sources := sources' }

/-- `setMode`: record the new mode (also in the settings) and run the
transition normalization. -/
def setMode (c : VolumeModeController) (mode : VolumeMode) : VolumeModeController :=
  handleModeTransition
    { c with mode := mode, settings := { c.settings with mode := mode } } mode

end VolumeModeController

end VolumeModes

namespace Messaging

/-- A decoded JSON field value, as the validator sees it after
`JSON.parse` (`typeof` dispatch). -/
inductive JSVal where
  | num (q : ℚ)
  | str (s : String)
  | bool (b : Bool)
  | null
deriving DecidableEq, Repr

/-- JavaScript truthiness of a field value (`!message.action`). -/
def jsTruthy : JSVal → Bool
  | .num q => q != 0
  | .str s => s != ""
  | .bool b => b
  | .null => false

/-- `native-host/src/messaging.ts` — a decoded request object.  Fields are
`Option JSVal`: `none` is an absent (or `undefined`) field; extra fields the
wire message may carry (such as `mode`) are kept so that a request can be
stated faithfully, though the validator never reads them. -/
structure RequestMessage where
  action : Option JSVal := none
  id : Option JSVal := none
  timestamp : Option JSVal := none
  sourceId : Option JSVal := none
  tabId : Option JSVal := none
  volume : Option JSVal := none
  muted : Option JSVal := none
  timeout : Option JSVal := none
  mode : Option JSVal := none
deriving DecidableEq, Repr

/-- Field lookup by schema field name (`message[field]`). -/
def getField (m : RequestMessage) : String → Option JSVal
  | "action" => m.action
  | "id" => m.id
  | "timestamp" => m.timestamp
  | "sourceId" => m.sourceId
  | "tabId" => m.tabId
  | "volume" => m.volume
  | "muted" => m.muted
  | "timeout" => m.timeout
  | "mode" => m.mode
  | _ => none

/-- A `MESSAGE_SCHEMAS` entry. -/
structure Schema where
  required : List String
  optional : List String
deriving DecidableEq, Repr

/-- `MESSAGE_SCHEMAS`: the five recognized actions and their field lists.
Lookup with a non-string key (`MESSAGE_SCHEMAS[message.action]` in JS)
yields `undefined`, i.e. `none`. -/
def MESSAGE_SCHEMAS : JSVal → Option Schema
  | .str "getAudioSources" => some ⟨[], ["timeout"]⟩
  | .str "setTabVolume" => some ⟨["sourceId", "volume"], ["tabId", "timeout"]⟩
  | .str "getVolume" => some ⟨["sourceId"], ["timeout"]⟩
  | .str "setMute" => some ⟨["sourceId", "muted"], ["timeout"]⟩
  | .str "getBrowserProcesses" => some ⟨[], ["timeout"]⟩
  | _ => none

/-- The distinct `MessageValidationError`s thrown by
`MessageValidator.validateRequest`, by site. -/
inductive MessageValidationError where
  | missingField (field : String)
  | unknownAction (action : JSVal)
  | invalidVolume (value : JSVal)
  | invalidMuted (value : JSVal)
  | invalidSourceId (value : JSVal)
deriving DecidableEq, Repr

/-- The `volume` range/type check:
`typeof volume !== 'number' || volume < 0 || volume > 100` throws. -/
def checkVolume (m : RequestMessage) : Option MessageValidationError :=
  match m.volume with
  | some (.num q) => if q < 0 ∨ 100 < q then some (.invalidVolume (.num q)) else none
  | some v => some (.invalidVolume v)
  | none => none

/-- The `muted` type check: `typeof muted !== 'boolean'` throws. -/
def checkMuted (m : RequestMessage) : Option MessageValidationError :=
  match m.muted with
  | some (.bool _) => none
  | some v => some (.invalidMuted v)
  | none => none

/-- `String.prototype.trim` (executable model): strip leading and trailing
whitespace characters. -/
def jsTrim (s : String) : String :=
  ⟨((s.data.dropWhile Char.isWhitespace).reverse.dropWhile Char.isWhitespace).reverse⟩

/-- The `sourceId` check:
`typeof sourceId !== 'string' || sourceId.trim() === ''` throws. -/
def checkSourceId (m : RequestMessage) : Option MessageValidationError :=
  match m.sourceId with
  | some (.str s) => if jsTrim s = "" then some (.invalidSourceId (.str s)) else none
  | some v => some (.invalidSourceId v)
  | none => none

/-- `MessageValidator.validateRequest`, returning the first error thrown, or
`none` when the message passes: action present and truthy, action known in
`MESSAGE_SCHEMAS`, every required field present, then the `volume`, `muted`
and `sourceId` value checks in order. -/
def validateRequest (m : RequestMessage) : Option MessageValidationError :=
  match m.action with
  | none => some (.missingField "action")
  | some a =>
      if jsTruthy a = false then some (.missingField "action")
      else
        match MESSAGE_SCHEMAS a with
        | none => some (.unknownAction a)
        | some schema =>
            ((schema.required.find? (fun f => (getField m f).isNone)).map
              MessageValidationError.missingField)
            <|> checkVolume m <|> checkMuted m <|> checkSourceId m

/-- Rendering of a `JSVal` inside an error-message template string
(only the string case is exercised by the modelled messages). -/
def jsValDisplay : JSVal → String
  | .str s => s
  | .bool true => "true"
  | .bool false => "false"
  | .null => "null"
  | .num q => toString q

/-- The `MessageValidationError` message strings of `messaging.ts`. -/
def errorMessageOf : MessageValidationError → String
  | .missingField f => "Missing required field: " ++ f
  | .unknownAction a => "Unknown action: " ++ jsValDisplay a
  | .invalidVolume _ => "Volume must be a number between 0 and 100"
  | .invalidMuted _ => "Muted must be a boolean"
  | .invalidSourceId _ => "SourceId must be a non-empty string"

/-- `messaging.ts` — a response object (`timestamp: Date.now()` omitted). -/
structure ResponseMessage where
  success : Bool
  requestId : Option JSVal
  data : Option JSVal
  error : Option String
deriving DecidableEq, Repr

/-- `MessageValidator.createSuccessResponse`. -/
def createSuccessResponse (requestId : Option JSVal) (data : Option JSVal) :
    ResponseMessage :=
  ⟨true, requestId, data, none⟩

/-- `MessageValidator.createErrorResponse`. -/
def createErrorResponse (requestId : Option JSVal) (errorMessage : String) :
    ResponseMessage :=
  ⟨false, requestId, none, some errorMessage⟩

/-- How a dispatched handler eventually settles. -/
inductive HandlerOutcome where
  | resolved (data : JSVal)
  | rejected (errorMessage : String)
deriving DecidableEq, Repr

/-- The two settlement events racing inside `validateAndRespond`. -/
inductive RaceEvent where
  | handlerSettled (outcome : HandlerOutcome)
  | timeoutFired
deriving DecidableEq, Repr

/-- `message.timeout || this.defaultTimeout` (5000 ms): a present, nonzero
numeric `timeout` field wins, every falsy or non-numeric value falls back to
the default. -/
def effectiveTimeout (m : RequestMessage) : ℚ :=
  match m.timeout with
  | some (.num t) => if t = 0 then 5000 else t
  | _ => 5000

/-- The settlement order of `Promise.race([handler(), timeoutPromise])`:
whichever of the handler (settling `handlerTime` ms after dispatch) and the
timer (firing at `timeoutMs`) comes first is delivered first. -/
def raceOrder (handlerTime timeoutMs : ℚ) (outcome : HandlerOutcome) :
    List RaceEvent :=
  if handlerTime < timeoutMs then [.handlerSettled outcome, .timeoutFired]
  else [.timeoutFired, .handlerSettled outcome]

/-- The response a settlement event would produce for request id
`requestId`. -/
def responseForEvent (requestId : Option JSVal) : RaceEvent → ResponseMessage
  | .handlerSettled (.resolved d) => createSuccessResponse requestId (some d)
  | .handlerSettled (.rejected e) => createErrorResponse requestId e
  | .timeoutFired => createErrorResponse requestId "Request timeout"

/-- Deliver the settlement events in order against the already-settled flag
of the raced promise: only the first event emits a response, every later
settlement is dropped. -/
def emitResponses (requestId : Option JSVal) :
    List RaceEvent → Bool → List ResponseMessage
  | [], _ => []
  | _ :: rest, true => emitResponses requestId rest true
  | e :: rest, false => responseForEvent requestId e :: emitResponses requestId rest true

/-- `NativeMessagingProtocol.validateAndRespond`, closed over the handler's
eventual outcome and settlement time: a validation failure responds
immediately with the error; otherwise the handler is raced against the
timeout and exactly the first settlement is answered. -/
def validateAndRespond (m : RequestMessage) (outcome : HandlerOutcome)
    (handlerTime : ℚ) : List ResponseMessage :=
  match validateRequest m with
  | some e => [createErrorResponse m.id (errorMessageOf e)]
  | none =>
      emitResponses m.id (raceOrder handlerTime (effectiveTimeout m) outcome) false

end Messaging

namespace Framer

/-- `NativeMessagingProtocol.maxMessageSize` — 1 MiB. -/
def maxMessageSize : ℕ := 1024 * 1024

/-- What a `processMessages` pass can emit: a complete frame's payload
(handed to `handleIncomingMessage`) or the `Message too large` error. -/
inductive FrameEvent where
  | messageData (payload : List ℕ)
  | frameTooLarge (length : ℕ)
deriving DecidableEq, Repr

/-- The framer's mutable state: `messageBuffer` and `expectedLength`
(`-1`, i.e. no header read yet, modelled as `none`). -/
structure FramerState where
  messageBuffer : List ℕ
  expectedLength : Option ℕ
deriving DecidableEq, Repr

/-- `Buffer.alloc(0)` / `expectedLength = -1`. -/
def initialState : FramerState := ⟨[], none⟩

/-- `buffer.readUInt32LE(0)`: the 32-bit little-endian value of the first
four bytes (unused on buffers shorter than four bytes). -/
def readUInt32LE : List ℕ → ℕ
  | b0 :: b1 :: b2 :: b3 :: _ => b0 + 256 * b1 + 65536 * b2 + 16777216 * b3
  | _ => 0

/-- `lengthBuffer.writeUInt32LE(n, 0)`: the four little-endian bytes of
`n` (mod 2^32). -/
def writeUInt32LE (n : ℕ) : List ℕ :=
  [n % 256, n / 256 % 256, n / 65536 % 256, n / 16777216 % 256]

/-- `NativeMessagingProtocol.processMessages`: the `while (true)` draining
loop.  With no header pending it needs four bytes, reads the length, and
either errors out (resetting `expectedLength` and breaking, buffer kept) on
an oversized length or proceeds to the payload check; with a header pending
it emits the payload once fully buffered and loops, else breaks. -/
def processMessages : FramerState → FramerState × List FrameEvent
  | ⟨buf, none⟩ =>
      if buf.length < 4 then (⟨buf, none⟩, [])
      else
        let len := readUInt32LE buf
        if maxMessageSize < len then
          (⟨buf.drop 4, none⟩, [.frameTooLarge len])
        else
          processMessages ⟨buf.drop 4, some len⟩
  | ⟨buf, some len⟩ =>
      if len ≤ buf.length then
        let rest := processMessages ⟨buf.drop len, none⟩
        (rest.1, .messageData (buf.take len) :: rest.2)
      else (⟨buf, some len⟩, [])
termination_by st => 2 * st.messageBuffer.length + (if st.expectedLength.isSome then 1 else 0)
decreasing_by
  all_goals simp [List.length_drop]
  · omega
  · omega

/-- One `processIncomingData` iteration on an arrived chunk:
`messageBuffer = Buffer.concat([messageBuffer, chunk])` followed by
`processMessages()`. -/
def feed (st : FramerState) (chunk : List ℕ) : FramerState × List FrameEvent :=
  processMessages ⟨st.messageBuffer ++ chunk, st.expectedLength⟩

/-- Feed a sequence of chunks in arrival order, collecting every emitted
event. -/
def feedAll (st : FramerState) : List (List ℕ) → FramerState × List FrameEvent
  | [] => (st, [])
  | c :: cs =>
      let r := feed st c
      let r' := feedAll r.1 cs
      (r'.1, r.2 ++ r'.2)

/-- The outbound encoding of `sendResponse` / `sendMessage`: the 4-byte
little-endian length prefix followed by the payload. -/
def encodeFrame (payload : List ℕ) : List ℕ :=
  writeUInt32LE payload.length ++ payload

/-- A back-to-back sequence of encoded frames. -/
def frameStream (payloads : List (List ℕ)) : List ℕ :=
  (payloads.map encodeFrame).flatten

end Framer

namespace Background

open VolumeModes (VolumeMode)

/-- `background.ts` — `interface AudioSource` (the background script's own
source record). -/
structure AudioSource where
  tabId : ℤ
  title : String
  favicon : Option String
  url : String
  volume : ℚ
  muted : Bool
  processId : Option ℤ
  isPlaying : Bool
deriving DecidableEq, Repr

/-- JavaScript `a || b` on an optional string: any falsy value (absent or
empty) falls back to the default. -/
def jsOrString (o : Option String) (d : String) : String :=
  match o with
  | some s => if s = "" then d else s
  | none => d

/-- `audioSources.set(tabId, v)` on the `Map<number, AudioSource>`:
replace in place when the key exists, append otherwise. -/
def mapSet (sources : List AudioSource) (tabId : ℤ) (v : AudioSource) :
    List AudioSource :=
  if sources.any (fun s => s.tabId == tabId) then
    sources.map (fun s => if s.tabId == tabId then v else s)
  else sources ++ [v]

/-- `background.ts` — `handleAudioStateChange`, restricted to its effect on
the `audioSources` map (popup notification, logging and the no-op
`mapTabToProcess` are omitted; the stopped branch's process-map cleanup
touches other maps only).  On `isPlaying` the source is created or updated
with `existingSource?.volume ?? 100` and `existingSource?.muted ?? false`;
otherwise the id is removed. -/
def handleAudioStateChange (sources : List AudioSource) (tabId : ℤ)
    (tabTitle : Option String) (tabFavicon : Option String)
    (tabUrl : Option String) (isPlaying : Bool) : List AudioSource :=
  if isPlaying then
    let existingSource := sources.find? (fun s => s.tabId == tabId)
    let audioSource : AudioSource :=
      { tabId := tabId
        title := jsOrString tabTitle "Unknown Tab"
        favicon := tabFavicon
        url := jsOrString tabUrl ""
        volume := (existingSource.map (fun s => s.volume)).getD 100
        muted := (existingSource.map (fun s => s.muted)).getD false
        processId := none
        isPlaying := true }
    mapSet sources tabId audioSource
  else
    sources.eraseP (fun s => s.tabId == tabId)

/-- The reply sent back by the background message router. -/
structure RouterResponse where
  success : Bool
  error : Option String
deriving DecidableEq, Repr

/-- `background.ts` — the `message.action === 'setMode'` branch of the
`chrome.runtime.onMessage` router: `currentVolumeMode = message.mode ||
'independent'` and `sendResponse({ success: true })`.  It neither consults
`MessageValidator` nor calls into the native host. -/
def onSetModeMessage (mode : Option VolumeMode) :
    VolumeMode × RouterResponse :=
  (mode.getD .independent, ⟨true, none⟩)

end Background

section ArithmeticHelpers

theorem jsClamp_nonneg (v : ℚ) : 0 ≤ jsClamp v := le_max_left _ _

theorem jsClamp_le_100 (v : ℚ) : jsClamp v ≤ 100 := by
  simp only [jsClamp, max_le_iff]
  exact ⟨by norm_num, min_le_left 100 v⟩

theorem jsClamp_of_range (v : ℚ) (h0 : 0 ≤ v) (h100 : v ≤ 100) : jsClamp v = v := by
  simp [jsClamp, h0, h100, min_eq_right, max_eq_right]

theorem jsRound_intCast (k : ℤ) : jsRound ((k : ℤ) : ℚ) = k := by
  rw [jsRound, Int.floor_eq_iff]
  constructor
  · linarith
  · linarith

theorem jsRound_nonneg (q : ℚ) (h : 0 ≤ q) : 0 ≤ jsRound q := by
  exact Int.le_floor.mpr (by push_cast; linarith)

theorem jsRound_le_100 (q : ℚ) (h : q ≤ 100) : jsRound q ≤ 100 := by
  have h1 : jsRound q < 101 := Int.floor_lt.mpr (by push_cast; linarith)
  omega

end ArithmeticHelpers

namespace VolumeModes

/-- A concrete source for witness instantiations. -/
def sampleSource (tabId : ℤ) (volume : ℚ) : AudioSource :=
  { id := "", tabId := tabId, title := "tab", favicon := none,
    url := "https://example.com", volume := volume, muted := false,
    isPlaying := true }

/-- A concrete controller for witness instantiations. -/
def sampleController (mode : VolumeMode) (sources : List AudioSource) :
    VolumeModeController :=
  { mode := mode, sources := sources,
    settings := { mode := mode, masterVolume := 100, muteAll := false } }

end VolumeModes

open VolumeModes VolumeModes.VolumeModeController in
/-- C10: calling `setVolume` with a source id that is not in the tracked
source set, under any policy, mutates nothing: the controller (hence every
source's volume and mute value) is unchanged, and the call returns the
unchanged source list rather than an error. -/
theorem setVolume_unknown_source_noop (c : VolumeModeController)
    (tabId : ℤ) (volume : ℚ) (h : ∀ s ∈ c.sources, ¬ s.tabId = tabId) :
    c.setVolume tabId volume = (c, c.getSources) := by
  have hfind : c.findSource tabId = none := by
    apply List.find?_eq_none.mpr
    intro s hs
    simpa using h s hs
  simp [VolumeModeController.setVolume, hfind, VolumeModeController.getSources]

open VolumeModes in
/-- Witness for C10 at a one-source registry and an absent tab id. -/
theorem setVolume_unknown_source_noop_witness :
    (sampleController .inverse [sampleSource 1 50]).setVolume 2 80
      = (sampleController .inverse [sampleSource 1 50], [sampleSource 1 50]) :=
  setVolume_unknown_source_noop _ 2 80 (by decide)

open VolumeModes VolumeModes.VolumeModeController in
/-- C4: under the Linked policy, `setVolume(t, newV)` with `newV ∈ [0,100]`:
if `t`'s old volume is 0 every tracked source's volume becomes `newV`;
otherwise, with ratio `r = newV / oldV`, every tracked source `s`'s volume
becomes `clamp(round(s.volume * r), 0, 100)`. -/
theorem linked_setVolume_spec (c : VolumeModeController) (tabId : ℤ)
    (volume : ℚ) (t : AudioSource)
    (hmode : c.mode = VolumeMode.linked)
    (hfind : c.findSource tabId = some t)
    (h0 : 0 ≤ volume) (h100 : volume ≤ 100) :
    (t.volume = 0 →
      (c.setVolume tabId volume).1.sources
        = c.sources.map (fun s => { s with volume := volume }))
    ∧ (¬ t.volume = 0 →
      (c.setVolume tabId volume).1.sources
        = c.sources.map (fun s =>
            { s with volume :=
                jsClamp ((jsRound (s.volume * (volume / t.volume)) : ℤ) : ℚ) })) := by
  have hcl : jsClamp volume = volume := jsClamp_of_range _ h0 h100
  constructor
  · intro hz
    simp [VolumeModeController.setVolume, VolumeModeController.setVolumeLinked,
      hfind, hmode, hz, hcl]
  · intro hz
    simp [VolumeModeController.setVolume, VolumeModeController.setVolumeLinked,
      hfind, hmode, hz, hcl]

open VolumeModes in
/-- Witness for C4: from volumes `[50, 100]`, setting the first source to
`100` under Linked yields `[100, 100]` (ratio 2, second source clamped). -/
theorem linked_setVolume_spec_witness :
    ((sampleController .linked [sampleSource 1 50, sampleSource 2 100]).setVolume
        1 100).1.sources.map (fun s => s.volume) = [100, 100] := by
  have h := linked_setVolume_spec
    (sampleController .linked [sampleSource 1 50, sampleSource 2 100]) 1 100
    (sampleSource 1 50) (by decide) (by decide) (by norm_num) (by norm_num)
  rw [h.2 (by decide)]
  simp only [sampleController, sampleSource, List.map_cons, List.map_nil]
  norm_num [jsRound, jsClamp, Int.floor_eq_iff, min_def, max_def]

open VolumeModes in
/-- With distinct tab ids and the target present, the `filter` in
`setVolumeInverse` counts exactly `n - 1` other sources. -/
theorem filter_other_length (l : List AudioSource) (tid : ℤ)
    (hnd : (l.map (fun s => s.tabId)).Nodup)
    (hmem : ∃ s ∈ l, s.tabId = tid) :
    (l.filter (fun s => !(s.tabId == tid))).length = l.length - 1 := by
  induction l with
  | nil => simp at hmem
  | cons a tl ih =>
      simp only [List.map_cons, List.nodup_cons] at hnd
      obtain ⟨hna, hnd'⟩ := hnd
      by_cases ha : a.tabId = tid
      · have htl : ∀ s ∈ tl, (!(s.tabId == tid)) = true := by
          intro s hs
          have : ¬ s.tabId = tid := by
            intro hcon
            exact hna (by
              rw [ha, ← hcon]
              exact List.mem_map_of_mem _ hs)
          simpa using this
        simp [List.filter_cons, ha, List.filter_eq_self.mpr htl]
      · obtain ⟨s, hs, hstid⟩ := hmem
        rcases List.mem_cons.mp hs with h1 | h1
        · exact absurd (h1 ▸ hstid) ha
        · have hlen : 1 ≤ tl.length := List.length_pos.mpr (List.ne_nil_of_mem h1)
          have hrec := ih hnd' ⟨s, h1, hstid⟩
          have hkeep : (!(a.tabId == tid)) = true := by simpa using ha
          simp only [List.filter_cons, hkeep, if_true, List.length_cons, hrec]
          omega

/-- In the Inverse branch with `n ≥ 2` sources and `0 ≤ v ≤ 100`, both the
code's per-other-source value `round(min(100, max(0, (100n − v)/(n−1))))`
and the specification's `clamp(round((100n − v)/(n−1)), 0, 100)` equal
`100`. -/
theorem inverse_other_volume (n : ℕ) (v : ℚ) (hn : 2 ≤ n)
    (_h0 : 0 ≤ v) (h100 : v ≤ 100) :
    (((jsRound (min 100 (max 0 ((100 * (n : ℚ) - v) / ((n : ℚ) - 1)))) : ℤ) : ℚ) = 100)
    ∧ jsClamp ((jsRound ((100 * (n : ℚ) - v) / ((n : ℚ) - 1)) : ℤ) : ℚ) = 100 := by
  have hn2 : (2 : ℚ) ≤ (n : ℚ) := by exact_mod_cast hn
  have hn1 : (0 : ℚ) < (n : ℚ) - 1 := by linarith
  have hq : 100 ≤ (100 * (n : ℚ) - v) / ((n : ℚ) - 1) := by
    rw [le_div_iff₀ hn1]
    linarith
  constructor
  · have hmm : min 100 (max 0 ((100 * (n : ℚ) - v) / ((n : ℚ) - 1))) = 100 := by
      rw [max_eq_right (le_trans (by norm_num) hq), min_eq_left hq]
    rw [hmm]
    exact_mod_cast congrArg (fun k => ((k : ℤ) : ℚ)) (by exact_mod_cast jsRound_intCast 100)
  · have h1 : (100 : ℤ) ≤ jsRound ((100 * (n : ℚ) - v) / ((n : ℚ) - 1)) :=
      Int.le_floor.mpr (by push_cast; linarith)
    have hk : (100 : ℚ) ≤ ((jsRound ((100 * (n : ℚ) - v) / ((n : ℚ) - 1)) : ℤ) : ℚ) := by
      exact_mod_cast h1
    rw [jsClamp, min_eq_left hk]
    norm_num

open VolumeModes VolumeModes.VolumeModeController in
/-- C1 (amended): under the Inverse policy with distinct tab ids, for a
tracked target and `n ≥ 2` sources, `setVolume(t, newV)` sets `t.volume` to
the clamped `newV` and every other source's volume to
`clamp(round((100*n − clamp(newV))/(n−1)), 0, 100)`; when `n < 2` the call
is a no-op that returns the unchanged source list (it does not write
`t.volume`, so it does not degenerate to Independent). -/
theorem inverse_setVolume_spec (c : VolumeModeController) (tabId : ℤ)
    (volume : ℚ) (t : AudioSource)
    (hmode : c.mode = VolumeMode.inverse)
    (hfind : c.findSource tabId = some t)
    (hnd : (c.sources.map (fun s => s.tabId)).Nodup) :
    (2 ≤ c.sources.length →
      (c.setVolume tabId volume).1.sources
        = c.sources.map (fun s =>
            if s.tabId = tabId then { s with volume := jsClamp volume }
            else { s with volume := (jsClamp ((jsRound
              ((100 * (c.sources.length : ℚ) - jsClamp volume)
                / ((c.sources.length : ℚ) - 1)) : ℤ) : ℚ)) }))
    ∧ (c.sources.length < 2 →
      c.setVolume tabId volume = (c, c.sources)) := by
  constructor
  · intro hn
    have hmem : ∃ s ∈ c.sources, s.tabId = tabId := by
      refine ⟨t, List.mem_of_find?_eq_some hfind, ?_⟩
      have := List.find?_some hfind
      simpa using this
    have hflt := filter_other_length c.sources tabId hnd hmem
    have hcast : (((c.sources.length - 1 : ℕ)) : ℚ) = (c.sources.length : ℚ) - 1 := by
      have h1 : 1 ≤ c.sources.length := le_trans (by norm_num) hn
      push_cast [h1]
      ring
    simp only [VolumeModeController.setVolume, hfind, hmode,
      VolumeModeController.setVolumeInverse, Nat.not_lt.mpr hn, if_false]
    have hother := inverse_other_volume c.sources.length (jsClamp volume) hn
      (jsClamp_nonneg volume) (jsClamp_le_100 volume)
    apply List.map_congr_left
    intro s _
    by_cases hs : s.tabId = tabId
    · simp [hs]
    · simp only [hs, if_false, beq_iff_eq]
      rw [hflt, hcast, hother.1, hother.2]
  · intro hn
    simp [VolumeModeController.setVolume, hfind, hmode,
      VolumeModeController.setVolumeInverse, hn]

open VolumeModes in
/-- Witness for C1 (amended) on three sources at `[50, 50, 50]`: setting the
first to `90` yields `[90, 100, 100]` (remaining budget `210` split two
ways, `105` clamped to `100`), and on one source the call is a no-op. -/
theorem inverse_setVolume_spec_witness :
    (((sampleController .inverse
        [sampleSource 1 50, sampleSource 2 50, sampleSource 3 50]).setVolume
        1 90).1.sources.map (fun s => s.volume) = [90, 100, 100])
    ∧ ((sampleController .inverse [sampleSource 1 50]).setVolume 1 80
        = (sampleController .inverse [sampleSource 1 50], [sampleSource 1 50])) := by
  have h3 := inverse_setVolume_spec
    (sampleController .inverse [sampleSource 1 50, sampleSource 2 50, sampleSource 3 50])
    1 90 (sampleSource 1 50) (by decide) (by decide) (by decide)
  have h1 := inverse_setVolume_spec
    (sampleController .inverse [sampleSource 1 50]) 1 80 (sampleSource 1 50)
    (by decide) (by decide) (by decide)
  constructor
  · rw [h3.1 (by decide)]
    simp only [sampleController, sampleSource, List.map_cons, List.map_nil]
    norm_num [jsRound, jsClamp, Int.floor_eq_iff, min_def, max_def]
  · exact h1.2 (by decide)

open VolumeModes in
/-- Counterexample to C1 as stated: with a single tracked source at volume
`50`, an Inverse `setVolume` to `80` leaves the volume at `50` — it does not
degenerate to Independent, which would set it to `80`. -/
theorem inverse_singleton_not_independent :
    (((sampleController .inverse [sampleSource 1 50]).setVolume 1 80).1.sources.map
        (fun s => s.volume) = [50])
    ∧ (((sampleController .independent [sampleSource 1 50]).setVolume 1 80).1.sources.map
        (fun s => s.volume) = [80])
    ∧ (50 : ℚ) ≠ 80 := by
  refine ⟨by decide, ?_, by norm_num⟩
  simp only [sampleController, sampleSource, VolumeModeController.setVolume,
    VolumeModeController.setVolumeIndependent, VolumeModeController.findSource]
  norm_num [jsClamp, min_def, max_def]

namespace VolumeModes

/-- The registry-touching operations of the Volume Coordinator surface. -/
inductive CoordinatorOp where
  | opSetVolume (tabId : ℤ) (volume : ℚ)
  | opSetMasterVolume (volume : ℚ)
  | opToggleMuteAll
  | opSetSourceMute (tabId : ℤ) (muted : Bool)
  | opSetMode (mode : VolumeMode)
deriving DecidableEq, Repr

/-- The controller state after one coordinator operation. -/
def applyOp (c : VolumeModeController) : CoordinatorOp → VolumeModeController
  | .opSetVolume t v => (c.setVolume t v).1
  | .opSetMasterVolume v => (c.setMasterVolume v).1
  | .opToggleMuteAll => c.toggleMuteAll.1
  | .opSetSourceMute t m => (c.setSourceMute t m).1
  | .opSetMode m => c.setMode m

/-- The source list returned by one coordinator operation (`setMode`
returns nothing). -/
def opReturned (c : VolumeModeController) : CoordinatorOp → List AudioSource
  | .opSetVolume t v => (c.setVolume t v).2
  | .opSetMasterVolume v => (c.setMasterVolume v).2
  | .opToggleMuteAll => c.toggleMuteAll.2
  | .opSetSourceMute t m => (c.setSourceMute t m).2
  | .opSetMode _ => []

/-- Every stored volume lies in `[0, 100]`. -/
def VolumeInvariant (c : VolumeModeController) : Prop :=
  ∀ s ∈ c.sources, 0 ≤ s.volume ∧ s.volume ≤ 100

end VolumeModes

theorem jsClamp_bounds (v : ℚ) : 0 ≤ jsClamp v ∧ jsClamp v ≤ 100 :=
  ⟨jsClamp_nonneg v, jsClamp_le_100 v⟩

open VolumeModes in
/-- Volume sums of an in-range registry are between `0` and `100 n`. -/
theorem sum_volumes_bounds (l : List AudioSource)
    (h : ∀ s ∈ l, 0 ≤ s.volume ∧ s.volume ≤ 100) :
    0 ≤ (l.map (fun s => s.volume)).sum
      ∧ (l.map (fun s => s.volume)).sum ≤ 100 * l.length := by
  induction l with
  | nil => simp
  | cons a tl ih =>
      have ha := h a (List.mem_cons_self a tl)
      have ih' := ih (fun s hs => h s (List.mem_cons_of_mem a hs))
      simp only [List.map_cons, List.sum_cons, List.length_cons]
      constructor
      · linarith [ih'.1, ha.1]
      · push_cast
        linarith [ih'.2, ha.2]

theorem inverse_other_bounds (x : ℚ) :
    0 ≤ ((jsRound (min 100 (max 0 x)) : ℤ) : ℚ)
      ∧ ((jsRound (min 100 (max 0 x)) : ℤ) : ℚ) ≤ 100 := by
  have h0 : 0 ≤ min 100 (max 0 x) := le_min (by norm_num) (le_max_left 0 x)
  have h1 : min 100 (max 0 x) ≤ 100 := min_le_left _ _
  constructor
  · exact_mod_cast jsRound_nonneg _ h0
  · exact_mod_cast jsRound_le_100 _ h1

open VolumeModes VolumeModes.VolumeModeController in
theorem setVolume_preserves_range (c : VolumeModeController) (t : ℤ) (v : ℚ)
    (hinv : VolumeInvariant c) :
    VolumeInvariant (c.setVolume t v).1 := by
  intro s' hs'
  rcases hf : c.findSource t with _ | target
  · rw [VolumeModeController.setVolume, hf] at hs'
    exact hinv s' hs'
  · rw [VolumeModeController.setVolume, hf] at hs'
    rcases hm : c.mode with _ | _ | _ <;> simp only [hm] at hs'
    · rw [VolumeModeController.setVolumeIndependent, hf] at hs'
      simp only [List.mem_map] at hs'
      obtain ⟨s, hs, rfl⟩ := hs'
      by_cases hid : (s.tabId == t) = true <;> simp [hid, jsClamp_bounds, hinv s hs]
    · rw [VolumeModeController.setVolumeLinked, hf] at hs'
      by_cases hz : target.volume = 0 <;> simp only [hz, if_true, if_false] at hs'
      · simp only [List.mem_map] at hs'
        obtain ⟨s, hs, rfl⟩ := hs'
        exact jsClamp_bounds v
      · simp only [hz, if_false, List.mem_map] at hs'
        obtain ⟨s, hs, rfl⟩ := hs'
        exact jsClamp_bounds _
    · rw [VolumeModeController.setVolumeInverse, hf] at hs'
      by_cases hn : c.sources.length < 2 <;> simp only [hn, if_true, if_false] at hs'
      · exact hinv s' hs'
      · simp only [List.mem_map] at hs'
        obtain ⟨s, hs, rfl⟩ := hs'
        by_cases hid : (s.tabId == t) = true
        · simpa [hid] using jsClamp_bounds v
        · simp only [hid, if_false]
          exact inverse_other_bounds _

open VolumeModes VolumeModes.VolumeModeController in
theorem handleModeTransition_preserves_range (c : VolumeModeController)
    (m : VolumeMode) (hinv : VolumeInvariant c) :
    VolumeInvariant (c.handleModeTransition m) := by
  intro s' hs'
  rcases m with _ | _ | _
  · exact hinv s' hs'
  · rw [VolumeModeController.handleModeTransition] at hs'
    by_cases h0 : c.sources.length = 0 <;> simp only [h0, if_true, if_false] at hs'
    · exact hinv s' hs'
    · simp only [List.mem_map] at hs'
      obtain ⟨s, hs, rfl⟩ := hs'
      have hlen : (0 : ℚ) < c.sources.length := by
        have := Nat.pos_of_ne_zero h0
        exact_mod_cast this
      have hsum := sum_volumes_bounds c.sources hinv
      have havg0 : 0 ≤ ((c.sources.map (fun s => s.volume)).sum) / (c.sources.length : ℚ) :=
        div_nonneg hsum.1 (le_of_lt hlen)
      have havg100 : ((c.sources.map (fun s => s.volume)).sum) / (c.sources.length : ℚ) ≤ 100 := by
        rw [div_le_iff₀ hlen]
        linarith [hsum.2]
      dsimp only
      constructor
      · exact_mod_cast jsRound_nonneg _ havg0
      · exact_mod_cast jsRound_le_100 _ havg100
  · rw [VolumeModeController.handleModeTransition] at hs'
    by_cases h0 : c.sources.length = 0 <;> simp only [h0, if_true, if_false] at hs'
    · exact hinv s' hs'
    · simp only [List.mem_map] at hs'
      obtain ⟨s, hs, rfl⟩ := hs'
      have hlen : (0 : ℚ) < c.sources.length := by
        have := Nat.pos_of_ne_zero h0
        exact_mod_cast this
      have hdiv : (0 : ℚ) ≤ 100 / (c.sources.length : ℚ) := by positivity
      have hr : (0 : ℚ) ≤ ((jsRound (100 / (c.sources.length : ℚ)) : ℤ) : ℚ) := by
        exact_mod_cast jsRound_nonneg _ hdiv
      dsimp only
      exact ⟨le_min (by norm_num) hr, min_le_left _ _⟩

open VolumeModes VolumeModes.VolumeModeController in
theorem setVolume_snd (c : VolumeModeController) (t : ℤ) (v : ℚ) :
    (c.setVolume t v).2 = (c.setVolume t v).1.sources := by
  rw [VolumeModeController.setVolume]
  cases c.findSource t
  · rfl
  · cases c.mode
    · rw [VolumeModeController.setVolumeIndependent]
      cases c.findSource t <;> rfl
    · rw [VolumeModeController.setVolumeLinked]
      cases c.findSource t
      · rfl
      · dsimp only
        split <;> rfl
    · rw [VolumeModeController.setVolumeInverse]
      cases c.findSource t
      · rfl
      · dsimp only
        split <;> rfl

open VolumeModes VolumeModes.VolumeModeController in
theorem opReturned_cases (c : VolumeModeController) (op : CoordinatorOp) :
    opReturned c op = (applyOp c op).sources ∨ opReturned c op = [] := by
  cases op with
  | opSetMode m => exact Or.inr rfl
  | opSetVolume t v => exact Or.inl (setVolume_snd c t v)
  | opSetMasterVolume v => exact Or.inl rfl
  | opToggleMuteAll => exact Or.inl rfl
  | opSetSourceMute t m =>
      refine Or.inl ?_
      rw [opReturned, applyOp, VolumeModeController.setSourceMute]
      cases c.findSource t <;> rfl

open VolumeModes VolumeModes.VolumeModeController in
/-- C6 (amended): starting from a registry whose volumes lie in `[0,100]`,
every Volume Coordinator operation, under every policy and for every numeric
input volume, stores in the registry and returns only volume values within
`[0,100]`.  (The values are clamped but not rounded: the target path stores
the clamped input itself, so they need not be integers — see the
counterexample.) -/
theorem coordinator_volume_range (c : VolumeModeController) (op : CoordinatorOp)
    (hinv : VolumeInvariant c) :
    VolumeInvariant (applyOp c op)
    ∧ ∀ s ∈ opReturned c op, 0 ≤ s.volume ∧ s.volume ≤ 100 := by
  have hstate : VolumeInvariant (applyOp c op) := by
    cases op with
    | opSetVolume t v => exact setVolume_preserves_range c t v hinv
    | opSetMasterVolume v =>
        intro s' hs'
        simp only [applyOp, VolumeModeController.setMasterVolume, List.mem_map] at hs'
        obtain ⟨s, hs, rfl⟩ := hs'
        exact jsClamp_bounds _
    | opToggleMuteAll =>
        intro s' hs'
        simp only [applyOp, VolumeModeController.toggleMuteAll, List.mem_map] at hs'
        obtain ⟨s, hs, rfl⟩ := hs'
        exact hinv s hs
    | opSetSourceMute t m =>
        intro s' hs'
        rw [applyOp, VolumeModeController.setSourceMute] at hs'
        rcases hf : c.findSource t with _ | target <;> rw [hf] at hs'
        · exact hinv s' hs'
        · simp only [List.mem_map] at hs'
          obtain ⟨s, hs, rfl⟩ := hs'
          by_cases hid : (s.tabId == t) = true <;> simp only [hid, if_true, if_false] <;>
            exact hinv s hs
    | opSetMode m =>
        have : VolumeInvariant
            { c with mode := m, settings := { c.settings with mode := m } } := by
          intro s hs
          exact hinv s hs
        exact handleModeTransition_preserves_range _ m this
  refine ⟨hstate, ?_⟩
  rcases opReturned_cases c op with h | h
  · rw [h]
    exact hstate
  · rw [h]
    intro s hs
    simp at hs

open VolumeModes in
/-- Witness for C6 (amended): an in-range two-source registry keeps all
volumes in `[0,100]` across an Inverse `setVolume`. -/
theorem coordinator_volume_range_witness :
    VolumeInvariant (applyOp
      (sampleController .inverse [sampleSource 1 50, sampleSource 2 50])
      (.opSetVolume 1 80)) := by
  have h := coordinator_volume_range
    (sampleController .inverse [sampleSource 1 50, sampleSource 2 50])
    (.opSetVolume 1 80)
    (by
      unfold VolumeInvariant
      decide)
  exact h.1

open VolumeModes VolumeModes.VolumeModeController in
/-- Counterexample to C6 as stated: under Independent, `setVolume` with the
in-range but non-integer volume `101/2` stores `101/2` itself in the
registry — a value within `[0,100]` but not an integer. -/
theorem coordinator_nonint_volume :
    (((sampleController .independent [sampleSource 1 100]).setVolume
        1 (101 / 2)).1.sources.map (fun s => s.volume) = [101 / 2])
    ∧ ¬ ∃ z : ℤ, ((101 : ℚ) / 2) = (z : ℚ) := by
  constructor
  · simp only [sampleController, sampleSource, VolumeModeController.setVolume,
      VolumeModeController.setVolumeIndependent, VolumeModeController.findSource]
    norm_num [jsClamp, min_def, max_def]
  · rintro ⟨z, hz⟩
    have h2 : (101 : ℚ) = 2 * (z : ℚ) := by
      field_simp at hz
      linarith
    have h3 : (101 : ℤ) = 2 * z := by exact_mod_cast h2
    omega

open Background in
theorem find?_replace (l : List Background.AudioSource) (tabId : ℤ)
    (v : Background.AudioSource) (hv : (v.tabId == tabId) = true)
    (hany : l.any (fun s => s.tabId == tabId) = true) :
    (l.map (fun s => if s.tabId == tabId then v else s)).find?
        (fun s => s.tabId == tabId) = some v := by
  induction l with
  | nil => simp at hany
  | cons a tl ih =>
      by_cases pa : (a.tabId == tabId) = true
      · simp only [List.map_cons, pa, if_true]
        simp [List.find?_cons, hv]
      · have pa' : (a.tabId == tabId) = false := by simpa using pa
        simp only [List.any_cons, pa', Bool.false_or] at hany
        rw [List.map_cons, List.find?_cons, if_neg pa, pa']
        exact ih hany

open Background in
theorem find?_append_one (l : List Background.AudioSource) (tabId : ℤ)
    (v : Background.AudioSource) (hv : (v.tabId == tabId) = true)
    (hnone : l.any (fun s => s.tabId == tabId) = false) :
    (l ++ [v]).find? (fun s => s.tabId == tabId) = some v := by
  induction l with
  | nil =>
      rw [List.nil_append]
      simp [List.find?_cons, hv]
  | cons a tl ih =>
      simp only [List.any_cons, Bool.or_eq_false_iff] at hnone
      rw [List.cons_append, List.find?_cons, hnone.1]
      exact ih hnone.2

open Background in
theorem find?_mapSet (l : List Background.AudioSource) (tabId : ℤ)
    (v : Background.AudioSource) (hv : (v.tabId == tabId) = true) :
    (mapSet l tabId v).find? (fun s => s.tabId == tabId) = some v := by
  rw [Background.mapSet]
  by_cases hany : l.any (fun s => s.tabId == tabId) = true
  · rw [if_pos hany]
    exact find?_replace l tabId v hv hany
  · rw [if_neg hany]
    exact find?_append_one l tabId v hv (Bool.eq_false_iff.mpr hany)

open Background in
/-- C8: an audio-started observation for a previously unknown source id
creates a tracked source with volume `100` and `muted = false`; a started
observation for an already-known id preserves that source's existing volume
and mute values, refreshing only the tab metadata and `isPlaying` — so a
second audio-started observation preserves what the first one stored. -/
theorem observeStarted_defaults_and_preserves
    (sources : List Background.AudioSource) (tabId : ℤ)
    (t1 f1 u1 : Option String) :
    (sources.find? (fun s => s.tabId == tabId) = none →
      (handleAudioStateChange sources tabId t1 f1 u1 true).find?
          (fun s => s.tabId == tabId)
        = some { tabId := tabId, title := jsOrString t1 "Unknown Tab",
                 favicon := f1, url := jsOrString u1 "", volume := 100,
                 muted := false, processId := none, isPlaying := true })
    ∧ (∀ e, sources.find? (fun s => s.tabId == tabId) = some e →
      (handleAudioStateChange sources tabId t1 f1 u1 true).find?
          (fun s => s.tabId == tabId)
        = some { tabId := tabId, title := jsOrString t1 "Unknown Tab",
                 favicon := f1, url := jsOrString u1 "", volume := e.volume,
                 muted := e.muted, processId := none, isPlaying := true }) := by
  constructor
  · intro hnone
    rw [Background.handleAudioStateChange, if_pos rfl, hnone]
    exact find?_mapSet sources tabId _ (by simp)
  · intro e he
    rw [Background.handleAudioStateChange, if_pos rfl, he]
    exact find?_mapSet sources tabId _ (by simp)

open Background in
/-- Witness for C8: on an empty registry an observation creates the default
source; a second observation on a registry holding that id at volume `30`,
muted, preserves `30` and `true`. -/
theorem observeStarted_defaults_and_preserves_witness :
    ((handleAudioStateChange [] 1 (some "a") none (some "u") true).find?
        (fun s => s.tabId == 1)
      = some { tabId := 1, title := "a", favicon := none, url := "u",
               volume := 100, muted := false, processId := none,
               isPlaying := true })
    ∧ ((handleAudioStateChange
          [{ tabId := 1, title := "a", favicon := none, url := "u",
             volume := 30, muted := true, processId := none,
             isPlaying := true }] 1 (some "b") none (some "u2") true).find?
        (fun s => s.tabId == 1)
      = some { tabId := 1, title := "b", favicon := none, url := "u2",
               volume := 30, muted := true, processId := none,
               isPlaying := true }) := by
  constructor
  · exact (observeStarted_defaults_and_preserves [] 1 (some "a") none (some "u")).1 rfl
  · exact (observeStarted_defaults_and_preserves
      [{ tabId := 1, title := "a", favicon := none, url := "u", volume := 30,
         muted := true, processId := none, isPlaying := true }] 1
      (some "b") none (some "u2")).2 _ rfl

/-- Counterexample to C7 as stated: a `setMode` request (with its `mode`
field present) does not pass the Message Validator — `MESSAGE_SCHEMAS` has
no `setMode` entry, so `validateRequest` throws exactly an unknown-action
error. -/
theorem validator_rejects_setMode :
    Messaging.validateRequest
        { action := some (.str "setMode"), mode := some (.str "linked") }
      = some (.unknownAction (.str "setMode")) := by
  rfl

/-- C7 (amended): `setMode` is not a recognized action of the native host's
Message Validator (it is rejected as an unknown action); it is instead
recognized by the extension's background message router — a path that never
consults the validator — whose `setMode` branch sets the process-wide mode
to the request's `mode` (defaulting to `independent` when absent) and
replies success. -/
theorem setMode_routing :
    (Messaging.validateRequest
        { action := some (.str "setMode"), mode := some (.str "linked") }
      = some (.unknownAction (.str "setMode")))
    ∧ (∀ m : VolumeModes.VolumeMode,
        Background.onSetModeMessage (some m) = (m, ⟨true, none⟩))
    ∧ Background.onSetModeMessage none = (.independent, ⟨true, none⟩) :=
  ⟨rfl, fun _ => rfl, rfl⟩

theorem orElse_eq_none_parts {α : Type} {a b : Option α}
    (h : (a <|> b) = none) : a = none ∧ b = none := by
  cases a <;> simp_all

open Messaging in
/-- If `validateRequest` accepts, the action is known, every required field
is present, and each of the three value checks passed. -/
theorem validateRequest_none_sound (m : RequestMessage)
    (h : validateRequest m = none) :
    (∃ a schema, m.action = some a ∧ MESSAGE_SCHEMAS a = some schema
        ∧ ∀ f ∈ schema.required, ¬ getField m f = none)
    ∧ checkVolume m = none ∧ checkMuted m = none ∧ checkSourceId m = none := by
  rw [Messaging.validateRequest] at h
  rcases ha : m.action with _ | a
  · rw [ha] at h
    simp at h
  · rw [ha] at h
    dsimp only at h
    by_cases ht : jsTruthy a = false
    · rw [if_pos ht] at h
      simp at h
    · rw [if_neg ht] at h
      rcases hs : MESSAGE_SCHEMAS a with _ | schema
      · rw [hs] at h
        simp at h
      · rw [hs] at h
        obtain ⟨h1, h2⟩ := orElse_eq_none_parts h
        obtain ⟨h3, h4⟩ := orElse_eq_none_parts h2
        obtain ⟨h5, h6⟩ := orElse_eq_none_parts h4
        refine ⟨⟨a, schema, rfl, hs, ?_⟩, h3, h5, h6⟩
        intro f hf hnone
        have hfind : schema.required.find? (fun f => (getField m f).isNone) = none := by
          simpa using h1
        have := List.find?_eq_none.mp hfind f hf
        simp [hnone] at this

open Messaging in
/-- C9: the Message Validator rejects, before any business logic, (i) a
`setTabVolume` request missing its `volume` field, (ii) any request whose
`volume` field is present but not a number within `[0,100]`, and (iii) any
request whose `sourceId` field is present but not a non-empty string. -/
theorem validator_rejections :
    (∀ m : RequestMessage, m.action = some (.str "setTabVolume") →
        m.volume = none → ¬ validateRequest m = none)
    ∧ (∀ m : RequestMessage, ∀ v, m.volume = some v →
        (∀ q : ℚ, v = .num q → (q < 0 ∨ 100 < q)) →
        ¬ validateRequest m = none)
    ∧ (∀ m : RequestMessage, ∀ v, m.sourceId = some v →
        (∀ s : String, v = .str s → s = "") →
        ¬ validateRequest m = none) := by
  refine ⟨?_, ?_, ?_⟩
  · intro m hact hvol hnone
    obtain ⟨⟨a, schema, ha, hs, hreq⟩, _, _, _⟩ := validateRequest_none_sound m hnone
    rw [hact] at ha
    cases ha
    rw [Messaging.MESSAGE_SCHEMAS] at hs
    cases hs
    exact hreq "volume" (by simp) (by simp [Messaging.getField, hvol])
  · intro m v hvol hbad hnone
    obtain ⟨_, hcv, _, _⟩ := validateRequest_none_sound m hnone
    rw [Messaging.checkVolume, hvol] at hcv
    rcases v with q | s | b | _
    · dsimp only at hcv
      rw [if_pos (hbad q rfl)] at hcv
      exact Option.noConfusion hcv
    · exact Option.noConfusion hcv
    · exact Option.noConfusion hcv
    · exact Option.noConfusion hcv
  · intro m v hsrc hbad hnone
    obtain ⟨_, _, _, hcs⟩ := validateRequest_none_sound m hnone
    rw [Messaging.checkSourceId, hsrc] at hcs
    rcases v with q | s | b | _
    · exact Option.noConfusion hcs
    · have hse : s = "" := hbad s rfl
      subst hse
      dsimp only at hcs
      rw [if_pos (show jsTrim "" = "" by decide)] at hcs
      exact Option.noConfusion hcs
    · exact Option.noConfusion hcs
    · exact Option.noConfusion hcs

open Messaging in
/-- Witness for C9: `setTabVolume` without `volume`, a request with
`volume = 150`, and a request with `sourceId = ""` are all rejected. -/
theorem validator_rejections_witness :
    (¬ validateRequest
        { action := some (.str "setTabVolume"), sourceId := some (.str "x") }
      = none)
    ∧ (¬ validateRequest
        { action := some (.str "setTabVolume"), sourceId := some (.str "x"),
          volume := some (.num 150) }
      = none)
    ∧ (¬ validateRequest
        { action := some (.str "setTabVolume"), sourceId := some (.str ""),
          volume := some (.num 100) }
      = none) := by
  refine ⟨?_, ?_, ?_⟩
  · exact validator_rejections.1 _ rfl rfl
  · exact validator_rejections.2.1 _ _ rfl (by
      intro q hq
      cases hq
      right
      norm_num)
  · exact validator_rejections.2.2 _ _ rfl (by
      intro s hs
      cases hs
      rfl)

open Messaging in
/-- C2: for every accepted request (one the validator passes), the
dispatcher emits exactly one `Response`; if the handler settles strictly
before the timeout the response carries the handler's result or error, and
if the timeout fires first the response is `success = false` with error
message `"Request timeout"`, the handler's later settlement being dropped
without a second response for that request id. -/
theorem dispatcher_exactly_one_response (m : RequestMessage)
    (outcome : HandlerOutcome) (handlerTime : ℚ)
    (hacc : validateRequest m = none) :
    (validateAndRespond m outcome handlerTime).length = 1
    ∧ (handlerTime < effectiveTimeout m →
        validateAndRespond m outcome handlerTime
          = [responseForEvent m.id (.handlerSettled outcome)])
    ∧ (effectiveTimeout m < handlerTime →
        validateAndRespond m outcome handlerTime
          = [createErrorResponse m.id "Request timeout"]) := by
  have hbody : validateAndRespond m outcome handlerTime
      = emitResponses m.id (raceOrder handlerTime (effectiveTimeout m) outcome) false := by
    rw [Messaging.validateAndRespond, hacc]
  by_cases hlt : handlerTime < effectiveTimeout m
  · rw [hbody, Messaging.raceOrder, if_pos hlt]
    refine ⟨rfl, fun _ => rfl, fun hgt => absurd hlt (not_lt.mpr (le_of_lt hgt))⟩
  · rw [hbody, Messaging.raceOrder, if_neg hlt]
    exact ⟨rfl, fun h => absurd h hlt, fun _ => rfl⟩

open Messaging in
/-- Witness for C2: a `getAudioSources` request answered before the default
5000 ms timeout yields exactly the success response; the same request with a
handler settling at 9000 ms yields exactly the timeout response. -/
theorem dispatcher_exactly_one_response_witness :
    (validateAndRespond { action := some (.str "getAudioSources") }
        (.resolved (.str "ok")) 1
      = [createSuccessResponse none (some (.str "ok"))])
    ∧ (validateAndRespond { action := some (.str "getAudioSources") }
        (.resolved (.str "late")) 9000
      = [createErrorResponse none "Request timeout"]) := by
  constructor
  · exact (dispatcher_exactly_one_response
      { action := some (.str "getAudioSources") } (.resolved (.str "ok")) 1
      rfl).2.1 (by norm_num [Messaging.effectiveTimeout])
  · exact (dispatcher_exactly_one_response
      { action := some (.str "getAudioSources") } (.resolved (.str "late")) 9000
      rfl).2.2 (by norm_num [Messaging.effectiveTimeout])

namespace Framer

theorem readUInt32LE_write (n : ℕ) (l : List ℕ) (h : n < 4294967296) :
    readUInt32LE (writeUInt32LE n ++ l) = n := by
  simp only [writeUInt32LE, List.cons_append, List.nil_append, readUInt32LE]
  omega

theorem readUInt32LE_write_nil (n : ℕ) (h : n < 4294967296) :
    readUInt32LE (writeUInt32LE n) = n := by
  have := readUInt32LE_write n [] h
  simpa using this

theorem length_writeUInt32LE (n : ℕ) : (writeUInt32LE n).length = 4 := by
  simp [writeUInt32LE]

theorem maxMessageSize_lt_pow32 : maxMessageSize < 4294967296 := by
  norm_num [maxMessageSize]

/-- If the first four bytes of `l` are the little-endian encoding of `n`,
the header read on `l` yields `n`. -/
theorem readUInt32LE_of_take (l : List ℕ) (n : ℕ)
    (h : l.take 4 = writeUInt32LE n) (hn : n < 4294967296) :
    readUInt32LE l = n := by
  have hl : l = writeUInt32LE n ++ l.drop 4 := by
    rw [← h, List.take_append_drop]
  rw [hl, readUInt32LE_write n _ hn]

theorem processMessages_none_eq (buf : List ℕ) :
    processMessages ⟨buf, none⟩ =
      if buf.length < 4 then (⟨buf, none⟩, [])
      else if maxMessageSize < readUInt32LE buf then
        (⟨buf.drop 4, none⟩, [.frameTooLarge (readUInt32LE buf)])
      else processMessages ⟨buf.drop 4, some (readUInt32LE buf)⟩ := by
  rw [processMessages]

theorem processMessages_some_eq (buf : List ℕ) (len : ℕ) :
    processMessages ⟨buf, some len⟩ =
      if len ≤ buf.length then
        ((processMessages ⟨buf.drop len, none⟩).1,
          .messageData (buf.take len) :: (processMessages ⟨buf.drop len, none⟩).2)
      else (⟨buf, some len⟩, []) := by
  conv_lhs => rw [processMessages]

/-- The framer state corresponding to an un-completed frame remainder `q`:
fewer than four buffered bytes means no header has been read yet; otherwise
the header has been consumed and its length is pending. -/
def stuckState (q : List ℕ) : FramerState :=
  if q.length < 4 then ⟨q, none⟩ else ⟨q.drop 4, some (readUInt32LE q)⟩

/-- `q` is a proper prefix of a single well-formed frame: either not even a
full header, or a full header announcing an in-bounds length whose payload
has not fully arrived. -/
def PartialFrame (q : List ℕ) : Prop :=
  q.length < 4
  ∨ (readUInt32LE q ≤ maxMessageSize ∧ q.length < 4 + readUInt32LE q
      ∧ q.take 4 = writeUInt32LE (readUInt32LE q))

theorem PartialFrame.nil : PartialFrame [] := Or.inl (by simp)

/-- A pending-header state is equivalent to re-reading its own header. -/
theorem processMessages_some_virtual (buf : List ℕ) (len : ℕ)
    (h : len ≤ maxMessageSize) :
    processMessages ⟨writeUInt32LE len ++ buf, none⟩
      = processMessages ⟨buf, some len⟩ := by
  rw [processMessages_none_eq]
  have hlen : (writeUInt32LE len ++ buf).length = 4 + buf.length := by
    simp [length_writeUInt32LE]
  have hr : readUInt32LE (writeUInt32LE len ++ buf) = len :=
    readUInt32LE_write len buf (lt_of_le_of_lt h maxMessageSize_lt_pow32)
  rw [if_neg (by omega), hr, if_neg (not_lt.mpr h)]
  congr 1


end Framer

namespace Framer

/-- From a partial frame remainder, `q.take 4` being a full header forces at
least four buffered bytes. -/
theorem PartialFrame.four_le {q : List ℕ}
    (h3 : q.take 4 = writeUInt32LE (readUInt32LE q)) : 4 ≤ q.length := by
  have := congrArg List.length h3
  simp only [List.length_take, length_writeUInt32LE] at this
  omega

/-- Draining a buffer holding a back-to-back sequence of well-formed frames
followed by a partial frame yields exactly those frames' payloads in order
and parks the framer on the partial remainder. -/
theorem processMessages_frameStream (ps : List (List ℕ))
    (hps : ∀ p ∈ ps, p.length ≤ maxMessageSize) (q : List ℕ)
    (hq : PartialFrame q) :
    processMessages ⟨frameStream ps ++ q, none⟩
      = (stuckState q, ps.map FrameEvent.messageData) := by
  induction ps with
  | nil =>
      simp only [frameStream, List.map_nil, List.flatten_nil, List.nil_append]
      rcases hq with hq4 | ⟨h1, h2, h3⟩
      · rw [processMessages_none_eq, if_pos hq4, stuckState, if_pos hq4]
      · have h4 : 4 ≤ q.length := PartialFrame.four_le h3
        rw [processMessages_none_eq, if_neg (by omega), if_neg (not_lt.mpr h1),
          processMessages_some_eq, if_neg (by simp only [List.length_drop]; omega),
          stuckState, if_neg (by omega)]
  | cons p ps' ih =>
      have hp : p.length ≤ maxMessageSize := hps p (List.mem_cons_self p ps')
      have hassoc : frameStream (p :: ps') ++ q
          = writeUInt32LE p.length ++ (p ++ (frameStream ps' ++ q)) := by
        simp [frameStream, encodeFrame, List.append_assoc]
      rw [hassoc, processMessages_some_virtual _ _ hp, processMessages_some_eq,
        if_pos (by simp), List.take_left, List.drop_left,
        ih (fun r hr => hps r (List.mem_cons_of_mem p hr))]
      simp

end Framer

namespace Framer

/-- Any split of a back-to-back frame stream decomposes as the frames wholly
inside the first part, a partial-frame remainder, and the rest of the
stream. -/
theorem frameStream_split (ps : List (List ℕ))
    (hps : ∀ p ∈ ps, p.length ≤ maxMessageSize) :
    ∀ x y, x ++ y = frameStream ps →
    ∃ psa psb q, ps = psa ++ psb ∧ x = frameStream psa ++ q
      ∧ q ++ y = frameStream psb ∧ PartialFrame q := by
  induction ps with
  | nil =>
      intro x y h
      simp only [frameStream, List.map_nil, List.flatten_nil,
        List.append_eq_nil] at h
      exact ⟨[], [], [], rfl, by simp [frameStream, h.1],
        by simp [frameStream, h.2], PartialFrame.nil⟩
  | cons p ps' ih =>
      intro x y h
      have hp : p.length ≤ maxMessageSize := hps p (List.mem_cons_self p ps')
      have hp32 : p.length < 4294967296 :=
        lt_of_le_of_lt hp maxMessageSize_lt_pow32
      have hcons : frameStream (p :: ps') = encodeFrame p ++ frameStream ps' := by
        simp [frameStream]
      rw [hcons] at h
      have hElen : (encodeFrame p).length = 4 + p.length := by
        simp [encodeFrame, length_writeUInt32LE]
      by_cases hx : x.length < (encodeFrame p).length
      · refine ⟨[], p :: ps', x, rfl, by simp [frameStream], by rw [hcons]; exact h, ?_⟩
        by_cases h4 : x.length < 4
        · exact Or.inl h4
        · right
          have hx4 : x.take 4 = writeUInt32LE p.length := by
            have h1 : (x ++ y).take 4 = (encodeFrame p ++ frameStream ps').take 4 := by
              rw [h]
            rw [List.take_append_of_le_length (by omega),
              List.take_append_of_le_length (by omega)] at h1
            rw [h1, encodeFrame, List.take_append_of_le_length
              (by rw [length_writeUInt32LE])]
            simp [writeUInt32LE]
          have hrx : readUInt32LE x = p.length := readUInt32LE_of_take x p.length hx4 hp32
          rw [hrx]
          exact ⟨hp, by omega, hx4⟩
      · have hle : (encodeFrame p).length ≤ x.length := le_of_not_lt hx
        have hxsplit : x = encodeFrame p ++ x.drop (encodeFrame p).length := by
          have h1 : (x ++ y).take (encodeFrame p).length = encodeFrame p := by
            rw [h, List.take_append_of_le_length (le_refl _), List.take_length]
          rw [List.take_append_of_le_length hle] at h1
          conv_lhs => rw [← List.take_append_drop (encodeFrame p).length x]
          rw [h1]
        have hrest : x.drop (encodeFrame p).length ++ y = frameStream ps' := by
          have h2 := h
          rw [hxsplit, List.append_assoc] at h2
          exact List.append_cancel_left h2
        obtain ⟨psa, psb, q, hsplit, hx', hq, hpq⟩ :=
          ih (fun r hr => hps r (List.mem_cons_of_mem p hr))
            (x.drop (encodeFrame p).length) y hrest
        refine ⟨p :: psa, psb, q, by rw [List.cons_append, hsplit], ?_, hq, hpq⟩
        rw [hxsplit, hx']
        simp [frameStream, List.append_assoc]

end Framer

namespace Framer

/-- A partial frame can only equal a whole frame stream when both are
empty. -/
theorem PartialFrame.eq_frameStream {q : List ℕ} {ps : List (List ℕ)}
    (hq : PartialFrame q) (hps : ∀ p ∈ ps, p.length ≤ maxMessageSize)
    (h : q = frameStream ps) : ps = [] ∧ q = [] := by
  cases ps with
  | nil =>
      refine ⟨rfl, ?_⟩
      simpa [frameStream] using h
  | cons p ps' =>
      exfalso
      have hp32 : p.length < 4294967296 :=
        lt_of_le_of_lt (hps p (List.mem_cons_self p ps')) maxMessageSize_lt_pow32
      have hqlen : 4 + p.length ≤ q.length := by
        rw [h]
        simp [frameStream, encodeFrame, length_writeUInt32LE]
      have hread : readUInt32LE q = p.length := by
        rw [h]
        have : frameStream (p :: ps')
            = writeUInt32LE p.length ++ (p ++ frameStream ps') := by
          simp [frameStream, encodeFrame, List.append_assoc]
        rw [this, readUInt32LE_write _ _ hp32]
      rcases hq with h4 | ⟨_, h2, _⟩
      · omega
      · omega

/-- Feeding any chunking of the remainder of a frame stream from the parked
state of its consumed part drains exactly the stream's payloads. -/
theorem feedAll_frameStream (cs : List (List ℕ)) :
    ∀ ps q, (∀ p ∈ ps, p.length ≤ maxMessageSize) → PartialFrame q →
    q ++ cs.flatten = frameStream ps →
    feedAll (stuckState q) cs = (⟨[], none⟩, ps.map FrameEvent.messageData) := by
  induction cs with
  | nil =>
      intro ps q hps hq hjoin
      simp only [List.flatten_nil, List.append_nil] at hjoin
      obtain ⟨rfl, rfl⟩ := hq.eq_frameStream hps hjoin
      simp [feedAll, stuckState]
  | cons c cs' ih =>
      intro ps q hps hq hjoin
      have hfeed : feed (stuckState q) c = processMessages ⟨q ++ c, none⟩ := by
        rw [stuckState]
        by_cases h4 : q.length < 4
        · rw [if_pos h4]
          rfl
        · rw [if_neg h4]
          rcases hq with hq4 | ⟨h1, _, h3⟩
          · exact absurd hq4 h4
          · rw [feed, ← processMessages_some_virtual _ _ h1]
            have hbuf : writeUInt32LE (readUInt32LE q) ++ (q.drop 4 ++ c) = q ++ c := by
              rw [← List.append_assoc, ← h3, List.take_append_drop]
            dsimp only
            rw [hbuf]
      have hjoin' : (q ++ c) ++ cs'.flatten = frameStream ps := by
        rw [List.append_assoc]
        simpa [List.flatten_cons] using hjoin
      obtain ⟨psa, psb, q', hsplit, hx, hq', hpq'⟩ :=
        frameStream_split ps hps (q ++ c) cs'.flatten hjoin'
      have hpsa : ∀ p ∈ psa, p.length ≤ maxMessageSize := by
        intro r hr
        exact hps r (by rw [hsplit]; exact List.mem_append_left psb hr)
      have hpsb : ∀ p ∈ psb, p.length ≤ maxMessageSize := by
        intro r hr
        exact hps r (by rw [hsplit]; exact List.mem_append_right psa hr)
      rw [feedAll, hfeed, hx, processMessages_frameStream psa hpsa q' hpq',
        ih psb q' hpsb hpq' hq', hsplit]
      simp

end Framer

open Framer in
/-- C3: for every sequence of payloads each at most the maximum frame size,
and every partition of the concatenated encodings (4-byte little-endian
length prefix followed by the payload) into chunks fed in order, the framer
yields exactly those payloads, once each, in arrival order, ending with an
empty buffer and no pending header. -/
theorem framer_chunked_roundtrip (ps cs : List (List ℕ))
    (hps : ∀ p ∈ ps, p.length ≤ maxMessageSize)
    (hcs : cs.flatten = frameStream ps) :
    feedAll initialState cs = (initialState, ps.map FrameEvent.messageData) := by
  have h := feedAll_frameStream cs ps [] hps PartialFrame.nil (by simpa using hcs)
  have hinit : stuckState [] = initialState := by
    rw [stuckState, if_pos (by simp)]
    rfl
  rw [hinit] at h
  exact h

open Framer in
/-- Witness for C3: payloads `[5,6]` and `[7]`, their encoded stream split
across three chunks cutting through both headers and a payload. -/
theorem framer_chunked_roundtrip_witness :
    feedAll initialState [[2, 0], [0, 0, 5, 6, 1, 0], [0, 0, 7]]
      = (initialState,
          [FrameEvent.messageData [5, 6], FrameEvent.messageData [7]]) :=
  framer_chunked_roundtrip [[5, 6], [7]] [[2, 0], [0, 0, 5, 6, 1, 0], [0, 0, 7]]
    (by decide) (by decide)

open Framer in
/-- C5 (amended): a chunk consisting of exactly an oversized length prefix
makes the framer emit `FrameTooLarge` and no payload, and reset to the
initial state, after which any chunking of well-formed frames is decoded
correctly.  (The guarantee needs the oversized frame's payload bytes never
to be fed: the framer discards only the 4-byte prefix, so any following
bytes of the oversized frame would be reparsed as new frame data — see the
counterexample.) -/
theorem framer_oversized_reset (L : ℕ) (cs ps : List (List ℕ))
    (hL : maxMessageSize < L) (hL32 : L < 4294967296)
    (hps : ∀ p ∈ ps, p.length ≤ maxMessageSize)
    (hcs : cs.flatten = frameStream ps) :
    feedAll initialState (writeUInt32LE L :: cs)
      = (initialState,
          FrameEvent.frameTooLarge L :: ps.map FrameEvent.messageData) := by
  have h1 : feed initialState (writeUInt32LE L)
      = (⟨[], none⟩, [FrameEvent.frameTooLarge L]) := by
    rw [feed]
    show processMessages ⟨writeUInt32LE L, none⟩ = _
    rw [processMessages_none_eq, if_neg (by rw [length_writeUInt32LE]; omega),
      readUInt32LE_write_nil L hL32, if_pos hL]
    simp [writeUInt32LE]
  have h2 := feedAll_frameStream cs ps [] hps PartialFrame.nil (by simpa using hcs)
  have hinit : stuckState [] = (⟨[], none⟩ : FramerState) := by
    rw [stuckState, if_pos (by simp)]
  rw [feedAll, h1, ← hinit, h2]
  rfl

open Framer in
/-- Witness for C5 (amended): an oversized prefix announcing `2^20 + 1`
bytes, followed by the two-chunk well-formed frame `[7]`, yields the error
and then the payload. -/
theorem framer_oversized_reset_witness :
    feedAll initialState [writeUInt32LE 1048577, [1, 0, 0], [0, 7]]
      = (initialState,
          [FrameEvent.frameTooLarge 1048577, FrameEvent.messageData [7]]) :=
  framer_oversized_reset 1048577 [[1, 0, 0], [0, 7]] [[7]]
    (by norm_num [maxMessageSize]) (by norm_num) (by decide) (by decide)

open Framer in
/-- Counterexample to C5 as stated: after the oversized length prefix, four
already-buffered bytes of the oversized frame's payload are not discarded,
so the well-formed frame `[7]` fed afterwards is swallowed as (mis-parsed)
frame data and never decoded: only the `FrameTooLarge` event is ever
emitted. -/
theorem framer_oversized_swallows :
    (feedAll initialState
        [writeUInt32LE 1048577 ++ [10, 0, 0, 0], encodeFrame [7]]).2
      = [FrameEvent.frameTooLarge 1048577] := by
  have e1 : writeUInt32LE 1048577 ++ [10, 0, 0, 0]
      = [1, 0, 16, 0, 10, 0, 0, 0] := by rfl
  have e2 : encodeFrame [7] = [1, 0, 0, 0, 7] := by rfl
  have s1 : feed initialState [1, 0, 16, 0, 10, 0, 0, 0]
      = (⟨[10, 0, 0, 0], none⟩, [FrameEvent.frameTooLarge 1048577]) := by
    rw [feed]
    show processMessages ⟨[1, 0, 16, 0, 10, 0, 0, 0], none⟩ = _
    rw [processMessages_none_eq]
    norm_num [readUInt32LE, maxMessageSize]
  have s2 : feed (⟨[10, 0, 0, 0], none⟩ : FramerState) [1, 0, 0, 0, 7]
      = (⟨[1, 0, 0, 0, 7], some 10⟩, []) := by
    rw [feed]
    show processMessages ⟨[10, 0, 0, 0, 1, 0, 0, 0, 7], none⟩ = _
    rw [processMessages_none_eq]
    norm_num [readUInt32LE, maxMessageSize, processMessages_some_eq]
  rw [e1, e2, feedAll, s1, feedAll, s2, feedAll]
  rfl
